import Mathlib

/-!
Verification development for the SweepMe! instrument-driver repository
(Codium-ai/instrument-drivers).  The three drivers
(`LockIn-SignalRecovery_7280DSP`, `Logger-Keithley_2700`,
`Logger-Rohde&Schwarz_RTx`) are shallowly embedded: Python strings are
Lean `String`s, Python `float` values are modelled by `PyFloat`
(exact rationals plus NaN and the two infinities), raised exceptions are
modelled by `Option`/`none`, and the instrument plus host environment is
passed in explicitly (response strings, stop flags, clocks).
-/

/-! ## Python string and number primitives -/

/-- Characters Python's `str.strip` / `float` / `int` treat as whitespace
(the subset relevant to the drivers). -/
def isPyWs (c : Char) : Bool :=
  c = ' ' ∨ c = '\t' ∨ c = '\n' ∨ c = '\r'

/-- Strip leading and trailing whitespace from a character list. -/
def stripWs (l : List Char) : List Char :=
  ((l.dropWhile isPyWs).reverse.dropWhile isPyWs).reverse

/-- Strip leading and trailing occurrences of one character
(Python `s.strip(c)`). -/
def stripChar (a : Char) (l : List Char) : List Char :=
  ((l.dropWhile (· = a)).reverse.dropWhile (· = a)).reverse

/-- Fuel-driven worker for splitting on a non-empty separator, scanning
left to right exactly like Python `str.split(sep)`. -/
def splitSepAux (sep : List Char) : Nat → List Char → List Char → List (List Char)
  | _, [], cur => [cur.reverse]
  | 0, l, cur => [cur.reverse ++ l]
  | fuel + 1, c :: cs, cur =>
    if sep.isPrefixOf (c :: cs) then
      cur.reverse :: splitSepAux sep fuel ((c :: cs).drop sep.length) []
    else
      splitSepAux sep fuel cs (c :: cur)

/-- Python `s.split(sep)` for a non-empty separator string. -/
def pySplit (s : String) (sep : String) : List String :=
  (splitSepAux sep.data (s.data.length + 1) s.data []).map String.mk

/-- Fuel-driven worker for replacing every occurrence of a non-empty
pattern, scanning left to right exactly like Python `str.replace`. -/
def replaceSepAux (pat repl : List Char) : Nat → List Char → List Char
  | _, [] => []
  | 0, l => l
  | fuel + 1, c :: cs =>
    if pat.isPrefixOf (c :: cs) then
      repl ++ replaceSepAux pat repl fuel ((c :: cs).drop pat.length)
    else
      c :: replaceSepAux pat repl fuel cs

/-- Python `s.replace(pat, repl)` for a non-empty pattern string. -/
def pyReplace (s : String) (pat repl : String) : String :=
  String.mk (replaceSepAux pat.data repl.data s.data.length s.data)

/-- Worker for whitespace splitting (Python `s.split()` with no
argument): runs of whitespace separate the words, empty words are
discarded. -/
def splitWsAux : List Char → List Char → List (List Char)
  | [], cur => if cur.isEmpty then [] else [cur.reverse]
  | c :: cs, cur =>
    if isPyWs c then
      if cur.isEmpty then splitWsAux cs [] else cur.reverse :: splitWsAux cs []
    else
      splitWsAux cs (c :: cur)

/-- Python `s.split()` (split on whitespace runs). -/
def pySplitWs (s : String) : List String :=
  (splitWsAux s.data []).map String.mk

/-- Python `a in s` substring containment. -/
def pyContains (s : String) (pat : String) : Bool :=
  (List.range (s.data.length + 1)).any fun i => pat.data.isPrefixOf (s.data.drop i)

/-- Python `s.startswith(p)`. -/
def pyStartsWith (s : String) (p : String) : Bool :=
  p.data.isPrefixOf s.data

/-- Python `s.endswith(p)`. -/
def pyEndsWith (s : String) (p : String) : Bool :=
  p.data.reverse.isPrefixOf s.data.reverse

/-- Numeric value of a digit run (most significant first). -/
def digitsToNat (ds : List Char) : Nat :=
  ds.foldl (fun a c => 10 * a + (c.toNat - 48)) 0

/-- Consume an optional leading sign; returns `(isNegative, rest)`. -/
def parseSign : List Char → Bool × List Char
  | '-' :: rest => (true, rest)
  | '+' :: rest => (false, rest)
  | l => (false, l)

/-- Split a character list into its leading digit run and the rest. -/
def spanDigits (l : List Char) : List Char × List Char :=
  (l.takeWhile Char.isDigit, l.dropWhile Char.isDigit)

/-- Python `int(s)` on a string: strip whitespace, optional sign, a
non-empty digit run, nothing else; `none` models the raised
`ValueError`. -/
def pyInt? (s : String) : Option Int :=
  let l := stripWs s.data
  let (neg, l1) := parseSign l
  let (ds, rest) := spanDigits l1
  if ds ≠ [] ∧ rest = [] then
    some (if neg then -(digitsToNat ds : Int) else (digitsToNat ds : Int))
  else
    none

/-- A Python float as the drivers use it: an exact rational (decimal
string literals are exact here), NaN, or a signed infinity. -/
inductive PyFloat where
  | num (q : ℚ)
  | nan
  | pinf
  | ninf
  deriving DecidableEq, Repr

/-- The exact rational value `m × 10 ^ (e - fracLen)` of a decimal
literal with integer-and-fraction digits worth `m`, `fracLen` fraction
digits and exponent `e`; phrased with `Rat.divInt` so that it evaluates
inside the kernel. -/
def decimalValue (m : Int) (fracLen : Nat) (e : Int) : ℚ :=
  let ex : Int := e - fracLen
  if 0 ≤ ex then Rat.divInt (m * 10 ^ ex.toNat) 1 else Rat.divInt m (10 ^ (-ex).toNat)

/-- Parse the optional exponent part of a float literal. -/
def parseExp : List Char → Option Int
  | [] => some 0
  | c :: rest =>
    if c = 'e' ∨ c = 'E' then
      let (eneg, r1) := parseSign rest
      let (ed, r2) := spanDigits r1
      if ed ≠ [] ∧ r2 = [] then
        some (if eneg then -(digitsToNat ed : Int) else (digitsToNat ed : Int))
      else
        none
    else
      none

/-- Parse the decimal-literal body of a Python float (sign already
consumed). -/
def parseDecimal (neg : Bool) (l : List Char) : Option PyFloat :=
  let (ip, r) := spanDigits l
  let (fp, r2) := match r with
    | '.' :: rest => spanDigits rest
    | _ => ([], r)
  if ip = [] ∧ fp = [] then
    none
  else
    match parseExp r2 with
    | none => none
    | some e =>
      let m : Int := digitsToNat (ip ++ fp)
      some (.num (decimalValue (if neg then -m else m) fp.length e))

/-- Lower-case a character list (ASCII, enough for `inf` / `nan`). -/
def lowerList (l : List Char) : List Char :=
  l.map Char.toLower

/-- Python `float(s)` on a string: strip whitespace, optional sign, then
either an `inf`/`infinity`/`nan` word (case-insensitive) or a decimal
literal with optional fraction and exponent; `none` models the raised
`ValueError`. -/
def pyFloat? (s : String) : Option PyFloat :=
  let l := stripWs s.data
  let (neg, l1) := parseSign l
  if lowerList l1 = "inf".data ∨ lowerList l1 = "infinity".data then
    some (if neg then .ninf else .pinf)
  else if lowerList l1 = "nan".data then
    some .nan
  else
    parseDecimal neg l1

/-- IEEE-style addition on modelled floats. -/
def pyAdd : PyFloat → PyFloat → PyFloat
  | .nan, _ => .nan
  | _, .nan => .nan
  | .pinf, .ninf => .nan
  | .ninf, .pinf => .nan
  | .pinf, _ => .pinf
  | _, .pinf => .pinf
  | .ninf, _ => .ninf
  | _, .ninf => .ninf
  | .num a, .num b => .num (a + b)

/-- IEEE-style multiplication on modelled floats. -/
def pyMul : PyFloat → PyFloat → PyFloat
  | .nan, _ => .nan
  | _, .nan => .nan
  | .pinf, .pinf => .pinf
  | .pinf, .ninf => .ninf
  | .ninf, .pinf => .ninf
  | .ninf, .ninf => .pinf
  | .pinf, .num b => if 0 < b then .pinf else if b < 0 then .ninf else .nan
  | .num a, .pinf => if 0 < a then .pinf else if a < 0 then .ninf else .nan
  | .ninf, .num b => if 0 < b then .ninf else if b < 0 then .pinf else .nan
  | .num a, .ninf => if 0 < a then .ninf else if a < 0 then .pinf else .nan
  | .num a, .num b => .num (a * b)

/-- Negation on modelled floats. -/
def pyNeg : PyFloat → PyFloat
  | .num a => .num (-a)
  | .nan => .nan
  | .pinf => .ninf
  | .ninf => .pinf

/-- Subtraction on modelled floats. -/
def pySub (a b : PyFloat) : PyFloat :=
  pyAdd a (pyNeg b)

/-- Python `x > 0.0` on modelled floats (false for NaN). -/
def pyGtZero : PyFloat → Bool
  | .num a => 0 < a
  | .pinf => true
  | _ => false

/-- Division of a modelled float by a positive integer count, as used by
`numpy.mean`. -/
def pyDivNat (x : PyFloat) (n : Nat) : PyFloat :=
  match x with
  | .num a => .num (mkRat a.num (a.den * n))
  | .nan => .nan
  | .pinf => .pinf
  | .ninf => .ninf

/-- Sum of a list of modelled floats. -/
def pySum (l : List PyFloat) : PyFloat :=
  l.foldl pyAdd (.num 0)

/-- `numpy.mean` over a list of modelled floats (NaN for the empty
list, matching numpy's NaN result). -/
def pyMean (l : List PyFloat) : PyFloat :=
  match l with
  | [] => .nan
  | _ => pyDivNat (pySum l) l.length

/-- `mapM` over `Option`, written structurally so that it evaluates in
the kernel; models a Python comprehension that can raise at any
element. -/
def optMapM (f : α → Option β) : List α → Option (List β)
  | [] => some []
  | a :: l =>
    match f a, optMapM f l with
    | some b, some r => some (b :: r)
    | _, _ => none

/-- First-match association lookup (Python `dict[key]`; the embedded
tables have pairwise-distinct keys, and dicts built by overwriting
updates are assembled with `dictInsert`). -/
def lookupA [DecidableEq α] : List (α × β) → α → Option β
  | [], _ => none
  | (k, v) :: d, a => if a = k then some v else lookupA d a

/-- Python `dict` insertion: overwrite the value if the key is present,
append otherwise. -/
def dictInsert [DecidableEq α] (d : List (α × β)) (k : α) (v : β) : List (α × β) :=
  if d.any (fun p => p.1 = k) then
    d.map fun p => if p.1 = k then (k, v) else p
  else
    d ++ [(k, v)]

/-- Fuel-driven decimal rendering of a natural number. -/
def natToCharsAux : Nat → Nat → List Char
  | 0, _ => []
  | fuel + 1, n =>
    if n < 10 then [Nat.digitChar n]
    else natToCharsAux fuel (n / 10) ++ [Nat.digitChar (n % 10)]

/-- Decimal rendering of a natural number (kernel-evaluable). -/
def natToChars (n : Nat) : List Char :=
  natToCharsAux (n + 1) n

/-- Python `str(i)` for an integer. -/
def intToString (i : Int) : String :=
  if i < 0 then String.mk ('-' :: natToChars (-i).toNat) else String.mk (natToChars i.toNat)

/-- Python `range(a, b)` over integers, as a list. -/
def pyRange (a b : Int) : List Int :=
  if a < b then (List.range (b - a).toNat).map (fun (k : Nat) => a + (k : Int)) else []

/-! ## `LockIn-SignalRecovery_7280DSP/main.py` -/

namespace Lockin

/-- The `gains` OrderedDict of the lock-in driver (label → command). -/
def gains : List (String × String) := [
  ("Auto gain", "AUTOMATIC 1"),
  ("0 dB", "AUTOMATIC 0; ACGAIN 0"),
  ("10 dB", "AUTOMATIC 0; ACGAIN 1"),
  ("20 dB", "AUTOMATIC 0; ACGAIN 2"),
  ("30 dB", "AUTOMATIC 0; ACGAIN 3"),
  ("40 dB", "AUTOMATIC 0; ACGAIN 4"),
  ("50 dB", "AUTOMATIC 0; ACGAIN 5"),
  ("60 dB", "AUTOMATIC 0; ACGAIN 6"),
  ("70 dB", "AUTOMATIC 0; ACGAIN 7"),
  ("80 dB", "AUTOMATIC 0; ACGAIN 8"),
  ("90 dB", "AUTOMATIC 0; ACGAIN 9")]

/-- Python `k[:-3]` (drop the last three characters). -/
def dropLast3 (s : String) : String :=
  String.mk (s.data.take (s.data.length - 3))

/-- Build the reverse gain map from the forward table, following the
dict comprehension
`{int(v.split()[-1]): int(k[:-3]) for k, v in self.gains.items()
  if v.startswith("AUTOMATIC 0; ACGAIN")}`:
entries are filtered by the prefix, keys come from the last
whitespace-separated token of the command, values from the label with
`" dB"` stripped; `none` models an `int()` conversion raising (which
does not happen on the concrete table). -/
def buildInvGains : List (String × String) → List (Int × Int) → Option (List (Int × Int))
  | [], d => some d
  | kv :: rest, d =>
    if pyStartsWith kv.2 "AUTOMATIC 0; ACGAIN" then
      match pyInt? ((pySplitWs kv.2).getLast?.getD ""), pyInt? (dropLast3 kv.1) with
      | some c, some n => buildInvGains rest (dictInsert d c n)
      | _, _ => none
    else
      buildInvGains rest d

/-- `self.inv_gains`, computed once at `__init__`. -/
def inv_gains : Option (List (Int × Int)) :=
  buildInvGains gains []

/-- The `timeconstants` OrderedDict of the lock-in driver. -/
def timeconstants : List (String × String) := [
  ("10µ", "TC 0"), ("20µ", "TC 1"), ("40µ", "TC 2"), ("80µ", "TC 3"),
  ("160µ", "TC 4"), ("320µ", "TC 5"), ("640µ", "TC 6"), ("5m", "TC 7"),
  ("10m", "TC 8"), ("20m", "TC 9"), ("50m", "TC 10"), ("100m", "TC 11"),
  ("200m", "TC 12"), ("500m", "TC 13"), ("1", "TC 14"), ("2", "TC 15"),
  ("5", "TC 16"), ("10", "TC 17"), ("20", "TC 18"), ("50", "TC 19"),
  ("100", "TC 20"), ("200", "TC 21"), ("500", "TC 22"), ("1k", "TC 23"),
  ("2k", "TC 24"), ("5k", "TC 25"), ("10k", "TC 26"), ("20k", "TC 27"),
  ("50k", "TC 28"), ("100k", "TC 29")]

/-- The `chars` OrderedDict of `unit_to_float`: the only rewriting
rules the converter applies, in their source order. -/
def unitChars : List (String × String) :=
  [("V", ""), ("s", ""), (" ", ""), ("n", "e-9"), ("µ", "e-6"), ("m", "e-3")]

/-- `unit_to_float`: apply each replacement in order, then `float(...)`;
`none` models the `float()` conversion raising `ValueError`. -/
def unit_to_float (unit : String) : Option PyFloat :=
  pyFloat? (unitChars.foldl (fun u p => pyReplace u p.1 p.2) unit)

/-- `trigger_ready`, with the ambient clock passed in as the elapsed
time `time.time() - self.time_ref`.  Returns the duration slept
(`.num 0` when `delta_time > 0.0` fails, i.e. no sleep); `none` models
an exception escaping from `unit_to_float`. -/
def trigger_ready (waittimeconstants : PyFloat) (timeconstant : String)
    (elapsed : PyFloat) : Option PyFloat :=
  (unit_to_float timeconstant).map fun tc =>
    let delta := pySub (pyMul waittimeconstants tc) elapsed
    if pyGtZero delta then delta else .num 0

/-- The GUI parameters read by `get_GUIparameter` (host-supplied
mapping; `WaitTimeConstants` arrives as text and is converted with
`float`). -/
structure GuiParams where
  sweepmode : String
  source : String
  inputSel : String
  coupling : String
  slope : String
  ground : String
  sensitivity : String
  filter1 : String
  filter2 : String
  gain : String
  timeconstant : String
  waittimeconstants : String

/-- The instance state `get_GUIparameter` binds. -/
structure GuiState where
  sweepmode : String
  source : String
  inputSel : String
  coupling : String
  slope : String
  ground : String
  sensitivity : String
  filter1 : String
  filter2 : String
  gain : String
  timeconstant : String
  waittimeconstants : PyFloat
  «variables» : List String
  units : List String
  plottype : List Bool
  savetype : List Bool
  deriving DecidableEq, Repr

/-- `get_GUIparameter` of the lock-in driver: copies the eleven option
strings, converts `WaitTimeConstants` with `float` (`none` models the
conversion raising), declares the fixed six variables, and picks the
unit vector from the input selection (`self.units` is left unchanged --
`prevUnits` -- when the input starts with neither `Voltage` nor
`Current`). -/
def get_GUIparameter (p : GuiParams) (prevUnits : List String) : Option GuiState :=
  match pyFloat? p.waittimeconstants with
  | none => none
  | some w =>
    let units :=
      if pyStartsWith p.inputSel "Voltage" then
        ["V", "deg", "Hz", "V", "dB", "V/sqrt(Hz)"]
      else if pyStartsWith p.inputSel "Current" then
        ["A", "deg", "Hz", "V", "dB", "A/sqrt(Hz)"]
      else
        prevUnits
    some ⟨p.sweepmode, p.source, p.inputSel, p.coupling, p.slope, p.ground,
          p.sensitivity, p.filter1, p.filter2, p.gain, p.timeconstant, w,
          ["Magnitude", "Phase", "Frequency", "Sensitivity", "AC Gain", "Noise density"],
          units,
          [true, true, true, true, true, true],
          [true, true, true, true, true, true]⟩

/-- The measurement fields `read_result` stores and `call` returns. -/
structure Results where
  r : PyFloat
  phi : PyFloat
  frq : PyFloat
  sen : PyFloat
  nhz : PyFloat
  acg_dB : Int

/-- `call` of the lock-in driver:
`return [self.r, self.phi, self.frq, self.sen, self.acg_dB, self.nhz]`. -/
def call (st : Results) : List PyFloat :=
  [st.r, st.phi, st.frq, st.sen, .num st.acg_dB, st.nhz]

end Lockin

/-! ## `Logger-Keithley_2700/main.py` -/

namespace Keithley

/-- The `modes` dict (GUI mode → SCPI function name). -/
def modes : List (String × String) := [
  ("Voltage DC", "VOLT:DC"), ("Voltage AC", "VOLT:AC"),
  ("Current DC", "CURR:DC"), ("Current AC", "CURR:AC"),
  ("Resistance", "RES"), ("FResistance", "FRES"),
  ("Frequency", "FREQ"), ("Period", "PER"),
  ("Temperature", "TEMP"), ("Continuity", "CONT")]

/-- The `mode_variables` dict (mode → variable name). -/
def mode_variables : List (String × String) := [
  ("Voltage DC", "DC Voltage"), ("Voltage AC", "AC Voltage"),
  ("Current DC", "DC Current"), ("Current AC", "AC Current"),
  ("Resistance", "Resistance"), ("FResistance", "FResistance"),
  ("Frequency", "Frequency"), ("Period", "Period"),
  ("Temperature", "K"), ("Continuity", "")]

/-- The `mode_units` dict (mode → unit). -/
def mode_units : List (String × String) := [
  ("Voltage DC", "V"), ("Voltage AC", "V"),
  ("Current DC", "A"), ("Current AC", "A"),
  ("Resistance", "Ohm"), ("FResistance", "Ohm"),
  ("Frequency", "Hz"), ("Period", "s"),
  ("Temperature", "K"), ("Continuity", "")]

/-- Expand one group of the channel-list syntax, following the loop
body in `get_GUIparameter`: a group containing `":"` is unpacked as
`first, last = x.split(":")` and becomes
`[str(x) for x in range(int(first), int(last) + 1)]`; any other group
is kept verbatim.  `none` models the unpacking or an `int()` raising. -/
def expandGroup (x : String) : Option (List String) :=
  if pyContains x ":" then
    match pySplit x ":" with
    | [first, last] =>
      match pyInt? first, pyInt? last with
      | some a, some b => some ((pyRange a (b + 1)).map intToString)
      | _, _ => none
    | _ => none
  else
    some [x]

/-- The channel-list derivation of `get_GUIparameter`:
`intermediate_list = channel_string.replace(",", ";").split(";")`, then
each group is expanded with `expandGroup` and the results are
concatenated in order. -/
def channelListOf (s : String) : Option (List String) :=
  (optMapM expandGroup (pySplit (pyReplace s "," ";") ";")).map List.flatten

/-- The GUI parameters read by `get_GUIparameter`. -/
structure Params where
  mode : String
  digits : String
  channelList : String
  trigger : String
  scanning : Bool
  rangeSel : String
  integrationSpeed : String
  temperatureUnit : String
  port : String

/-- The instance state `get_GUIparameter` binds. -/
structure GuiState where
  mode : String
  digits : String
  channel_string : String
  channel_list : List String
  channel_names : List String
  trigger_type : String
  scanning : Bool
  rangeSel : String
  integration_speed : String
  temperature_unit : String
  port_string : String
  «variables» : List String
  units : List String
  plottype : List Bool
  savetype : List Bool
  deriving DecidableEq, Repr

/-- `get_GUIparameter` of the multimeter driver: derives the channel
list and names, then declares variables/units/plottype/savetype --
one entry per channel when `Scanning` is set, a single entry otherwise.
`none` models a raised exception (channel expansion failure or a dict
lookup miss on an unknown mode). -/
def get_GUIparameter (p : Params) : Option GuiState :=
  match channelListOf p.channelList with
  | none => none
  | some clist =>
    let cnames := clist.map fun x => "Dev" ++ String.mk x.data.tail
    if p.scanning then
      let vars := cnames.map fun nm => p.mode ++ " " ++ nm
      let units? :=
        if pyContains p.mode "Temperature" then
          some (List.replicate clist.length p.temperatureUnit)
        else
          (lookupA mode_units p.mode).map (List.replicate clist.length)
      match units? with
      | none => none
      | some units =>
        some ⟨p.mode, p.digits, p.channelList, clist, cnames, p.trigger,
              p.scanning, p.rangeSel, p.integrationSpeed, p.temperatureUnit,
              p.port, vars, units,
              List.replicate clist.length true, List.replicate clist.length true⟩
    else
      match lookupA mode_variables p.mode, lookupA mode_units p.mode with
      | some v, some u =>
        some ⟨p.mode, p.digits, p.channelList, clist, cnames, p.trigger,
              p.scanning, p.rangeSel, p.integrationSpeed, p.temperatureUnit,
              p.port, [v], [u], [true], [true]⟩
      | _, _ => none

/-- Outcome of one run of a polling loop. -/
inductive LoopResult where
  | exited (sleeps : Nat)
  | raised
  deriving DecidableEq, Repr

/-- The `read_result` polling loop.  The environment supplies the
host's stop flag (`self.is_run_stopped()`) and the instrument's
`TRAC:FREE?` response, both indexed by the tick counter; `numChannels`
is `len(self.channel_list)`.  Each tick checks the stop flag, then
reads the buffer usage (`split(",")` index 1, converted with `int`),
breaks when at least `len(channel_list) * 16` bytes are used, and
otherwise sleeps 0.1 s before the next tick.  The result counts the
sleeps executed; `none` means the fuel ran out with the loop still
polling. -/
def read_result (stop : Nat → Bool) (resp : Nat → String) (numChannels : Nat) :
    Nat → Nat → Option LoopResult
  | 0, _ => none
  | fuel + 1, t =>
    if stop t then
      some (.exited 0)
    else
      match (pySplit (resp t) ",")[1]? with
      | none => some .raised
      | some bytesInUse =>
        match pyInt? bytesInUse with
        | none => some .raised
        | some b =>
          if (numChannels * 16 : Int) ≤ b then
            some (.exited 0)
          else
            match read_result stop resp numChannels fuel (t + 1) with
            | some (.exited n) => some (.exited (n + 1))
            | r => r

/-- `call` of the multimeter driver.  The `FETCh?` response string is
stripped of newlines and split on `","`; every token is converted with
`float` (`none` models a conversion raising).  With `Scanning` set the
values are returned one per token; otherwise the single-element list
holding their `numpy.mean` is returned. -/
def call (scanning : Bool) (answer : String) : Option (List PyFloat) :=
  let tokens := pySplit (String.mk (stripChar '\n' answer.data)) ","
  match optMapM pyFloat? tokens with
  | none => none
  | some readings => some (if scanning then readings else [pyMean readings])

end Keithley

/-! ## `Logger-Rohde&Schwarz_RTx/main.py` -/

namespace Rtx

/-- The `modes` dict of the oscilloscope driver (GUI label → SCPI
measurement code). -/
def modes : List (String × String) := [
  ("None", "NONE"),
  ("Frequency in Hz", "FREQ"),
  ("Period time in s", "PER"),
  ("Peak to peak in V", "PEAK"),
  ("Maximum peak in V", "UPE"),
  ("Minimum peak in V", "LPE"),
  ("Positive pulse count", "PPC"),
  ("Negative pulse count", "NPC"),
  ("Rising edge count", "REC"),
  ("Falling edge count", "FEC"),
  ("High reference in V", "HIGH"),
  ("Low reference in V", "LOW"),
  ("Amplitude in V", "AMPL"),
  ("Mean in V", "MEAN"),
  ("RMS in V", "RMS"),
  ("Rise time in s", "RTIM"),
  ("Fall time in s", "FTIM"),
  ("Positive duty cycle in %", "PDCY"),
  ("Negative duty cycle in %", "NDCY"),
  ("Positive pulse width in s", "PPW"),
  ("Negative pulse width in s", "NPW"),
  ("Cycle mean in V", "CYCM"),
  ("Cycle RMS in V", "CYCR"),
  ("STDDev", "STDD"),
  ("CYCStddev", "CYCS"),
  ("Delay in s", "DEL"),
  ("Phase difference in °", "PHAS"),
  ("Burst width in s", "BWID"),
  ("Positive overshoot in %", "POV"),
  ("Negative overshoot in %", "NOV")]

/-- `self.maximum_measurement_places` (6 for the RTB2004). -/
def maximum_measurement_places : Int := 6

/-- `self.use_preset` as set in `__init__` (the preset path is
currently disabled). -/
def use_preset : Bool := false

/-- `parse_parameter(int, parameters, key, fallback)`: missing key or a
failing `int()` conversion yields the fallback. -/
def parse_parameter_int (params : String → Option String) (key : String)
    (fallback : Int) : Int :=
  match params key with
  | some v => (pyInt? v).getD fallback
  | none => fallback

/-- `parameters.get(f"Place {place} channel", "None")`. -/
def placeChannel (params : String → Option String) (place : Int) : String :=
  (params ("Place " ++ intToString place ++ " channel")).getD "None"

/-- `parameters.get(f"Place {place} mode", "None")`. -/
def placeMode (params : String → Option String) (place : Int) : String :=
  (params ("Place " ++ intToString place ++ " mode")).getD "None"

/-- `parameters.get(f"Place {place} statistics", "None")`. -/
def placeStatistics (params : String → Option String) (place : Int) : String :=
  (params ("Place " ++ intToString place ++ " statistics")).getD "None"

/-- The SweepMe return parameters and measurement places rebuilt by
`apply_gui_parameters`.  `measurement_places` keeps the insertion
order of the Python dict keyed by the place number. -/
structure State where
  measurement_places : List (Int × Int × String × String)
  «variables» : List String
  units : List String
  plottype : List Bool
  savetype : List Bool
  deriving DecidableEq, Repr

/-- The empty (reset) state assigned at the top of
`apply_gui_parameters`. -/
def emptyState : State :=
  ⟨[], [], [], [], []⟩

/-- One iteration of the place loop in `apply_gui_parameters`: when the
place's channel and mode are both different from `"None"`, the place is
recorded (channel number from `int(channel[-1])`, code from
`self.modes[mode]`) and exactly one variable/unit/plottype/savetype
entry is appended; otherwise the state is unchanged.  `none` models
`int()` raising on the channel's last character or a `KeyError` on the
mode table. -/
def processPlace (params : String → Option String) (st : State) (place : Int) :
    Option State :=
  let channel := placeChannel params place
  let mode := placeMode params place
  let statistics := placeStatistics params place
  if channel ≠ "None" ∧ mode ≠ "None" then
    match channel.data.getLast? with
    | none => none
    | some lastChar =>
      match pyInt? (String.mk [lastChar]), lookupA modes mode with
      | some channelNum, some modeCode =>
        let modeShort := (pySplit mode " in ").headD ""
        let unit := ((pySplit mode " in ").getLast?).getD ""
        some ⟨st.measurement_places ++ [(place, channelNum, modeCode, statistics)],
              st.«variables» ++ [channel ++ " " ++ modeShort],
              st.units ++ [unit],
              st.plottype ++ [true],
              st.savetype ++ [true]⟩
      | _, _ => none
  else
    some st

/-- The `for place in range(1, number_of_places + 1)` loop of
`apply_gui_parameters`. -/
def applyPlaces (params : String → Option String) :
    List Int → State → Option State
  | [], st => some st
  | p :: ps, st =>
    match processPlace params st p with
    | some st2 => applyPlaces params ps st2
    | none => none

/-- `apply_gui_parameters`: reads the waveform count, resets the
measurement places and the four return-parameter lists, then either
declares the six preset placeholders (`use_preset`) or runs the place
loop.  Returns the waveform count with the new state; `none` models an
exception from the loop. -/
def apply_gui_parameters (usePreset : Bool) (params : String → Option String) :
    Option (Int × State) :=
  let waveformCount := parse_parameter_int params "Waveform count" 1
  if usePreset then
    some (waveformCount,
      ⟨[],
       (pyRange 1 (maximum_measurement_places + 1)).map
         (fun n => "Place " ++ intToString n),
       List.replicate 6 "",
       List.replicate 6 true,
       List.replicate 6 true⟩)
  else
    let numberOfPlaces := parse_parameter_int params "Number of places"
      maximum_measurement_places
    (applyPlaces params (pyRange 1 (numberOfPlaces + 1)) emptyState).map
      fun st => (waveformCount, st)

/-- `read_result_and_handle_error`: the vendor sentinel `"9.91E+37"`
maps to NaN, anything else goes through `float` (`none` models the
conversion raising). -/
def read_result_and_handle_error (ret : String) : Option PyFloat :=
  if ret ≠ "9.91E+37" then pyFloat? ret else some .nan

/-- The per-place polling loop of `request_result`
(`while self.get_waveform_count(place) < self.waveform_count:
time.sleep(0.1)`).  The environment supplies the host's stop flag and
the instrument's waveform-count response per tick; the loop body
consults only the waveform count -- the stop flag is never read.
`none` means the fuel ran out with the loop still polling; `.raised`
models `int()` failing on a response. -/
def waitForWaveforms (stop : Nat → Bool) (resp : Nat → String)
    (waveformCount : Int) : Nat → Nat → Option Keithley.LoopResult
  | 0, _ => none
  | fuel + 1, t =>
    match pyInt? (resp t) with
    | none => some .raised
    | some c =>
      if c < waveformCount then
        match waitForWaveforms stop resp waveformCount fuel (t + 1) with
        | some (.exited n) => some (.exited (n + 1))
        | r => r
      else
        some (.exited 0)

/-- The statistics dispatch inside `call`: which wrapped query is sent
for one measurement place.  The environment function answers a query
(identified by the SCPI suffix actually written) for a place. -/
def resultForPlace (env : Int → String → String)
    (entry : Int × Int × String × String) : Option PyFloat :=
  let place := entry.1
  let mode := entry.2.2.1
  let statistics := entry.2.2.2
  let query :=
    if statistics = "Minimum" then "RES:NPE?"
    else if statistics = "Maximum" then "RES:PPE?"
    else if statistics = "Average" then "RES:AVG?"
    else "RES:ACT? " ++ mode
  read_result_and_handle_error (env place query)

/-- `call` of the oscilloscope driver: one result is read per entry of
`measurement_places` (dispatching on the entry's statistics mode); in
preset mode the result list is padded with NaN up to the six places.
`none` models a parse error raising inside a read. -/
def call (usePreset : Bool) (places : List (Int × Int × String × String))
    (env : Int → String → String) : Option (List PyFloat) :=
  match optMapM (resultForPlace env) places with
  | none => none
  | some results =>
    if usePreset ∧ (results.length : Int) < maximum_measurement_places then
      some (results ++
        List.replicate (maximum_measurement_places - results.length).toNat .nan)
    else
      some results

end Rtx

/-! ## Helper definitions and lemmas -/

/-- A string whose characters form a decimal integer: an optional
leading minus sign followed by a non-empty digit run. -/
def isDecimalIntString (s : String) : Bool :=
  let ds := if s.data.headD ' ' = '-' then s.data.tail else s.data
  !ds.isEmpty && ds.all Char.isDigit

theorem optMapM_length (f : α → Option β) :
    ∀ (l : List α) (r : List β), optMapM f l = some r → r.length = l.length := by
  intro l
  induction l with
  | nil => intro r h; simp [optMapM] at h; simp [← h]
  | cons a t ih =>
    intro r h
    simp only [optMapM] at h
    cases hf : f a with
    | none => rw [hf] at h; exact absurd h (by simp)
    | some b =>
      rw [hf] at h
      cases hm : optMapM f t with
      | none => rw [hm] at h; exact absurd h (by simp)
      | some r' =>
        rw [hm] at h
        simp only [Option.some.injEq] at h
        subst h
        simp [ih r' hm]

theorem digitChar_isDigit {n : Nat} (h : n < 10) : (Nat.digitChar n).isDigit = true := by
  interval_cases n <;> decide

theorem natToCharsAux_all_digits : ∀ (fuel n : Nat),
    (natToCharsAux fuel n).all Char.isDigit = true := by
  intro fuel
  induction fuel with
  | zero => intro n; rfl
  | succ f ih =>
    intro n
    simp only [natToCharsAux]
    by_cases h : n < 10
    · simp [h, digitChar_isDigit h]
    · simp only [h, if_false]
      rw [List.all_append]
      simp [ih (n / 10), digitChar_isDigit (Nat.mod_lt n (by norm_num))]

theorem natToCharsAux_ne_nil (fuel n : Nat) : natToCharsAux (fuel + 1) n ≠ [] := by
  simp only [natToCharsAux]
  by_cases h : n < 10
  · simp [h]
  · simp [h]

theorem digit_ne_minus {c : Char} (h : c.isDigit = true) : c ≠ '-' := by
  intro hc
  subst hc
  exact absurd h (by decide)

theorem natToChars_decimal_tail (n : Nat) :
    (!(natToChars n).isEmpty && (natToChars n).all Char.isDigit) = true := by
  unfold natToChars
  have h1 := natToCharsAux_all_digits (n + 1) n
  have h2 := natToCharsAux_ne_nil n n
  cases hl : natToCharsAux (n + 1) n with
  | nil => exact absurd hl h2
  | cons c cs => rw [hl] at h1; simp_all

theorem natToChars_head_digit (n : Nat) : ((natToChars n).headD ' ').isDigit = true := by
  unfold natToChars
  have h1 := natToCharsAux_all_digits (n + 1) n
  have h2 := natToCharsAux_ne_nil n n
  cases hl : natToCharsAux (n + 1) n with
  | nil => exact absurd hl h2
  | cons c cs => rw [hl] at h1; simp_all

theorem intToString_isDecimal (i : Int) : isDecimalIntString (intToString i) = true := by
  unfold intToString isDecimalIntString
  by_cases h : i < 0
  · simp only [h, if_true]
    have h1 := natToChars_decimal_tail (-i).toNat
    simp_all
  · simp only [h, if_false]
    have h1 := natToChars_decimal_tail i.toNat
    have h3 := natToChars_head_digit i.toNat
    have hne : (natToChars i.toNat).headD ' ' ≠ '-' := digit_ne_minus h3
    simp_all

/-! ## Claim theorems -/

/-- The device code embedded in a gain-table command (the last
whitespace-separated token, as converted by the dict comprehension). -/
def gainCode (p : String × String) : Int :=
  (pyInt? ((pySplitWs p.2).getLast?.getD "")).getD 0

/-- The decibel value of a gain-table label (the label with `" dB"`
stripped, as converted by the dict comprehension). -/
def gainDb (p : String × String) : Int :=
  (pyInt? (Lockin.dropLast3 p.1)).getD 0

/-- C2: every gain-table entry whose command starts with
`"AUTOMATIC 0; ACGAIN"` has the shape label `"N dB"`, command
`"AUTOMATIC 0; ACGAIN c"`, and `inv_gains` maps the embedded code `c`
back to the decibel value `N`; the `"Auto gain"` command does not match
the prefix, and the inverse map has exactly the ten filtered entries. -/
theorem C2_gain_inverse_mapping :
    (∀ p ∈ Lockin.gains, pyStartsWith p.2 "AUTOMATIC 0; ACGAIN" = true →
      p.2 = "AUTOMATIC 0; ACGAIN " ++ intToString (gainCode p)
      ∧ p.1 = intToString (gainDb p) ++ " dB"
      ∧ Lockin.inv_gains.bind (fun d => lookupA d (gainCode p)) = some (gainDb p))
    ∧ pyStartsWith "AUTOMATIC 1" "AUTOMATIC 0; ACGAIN" = false
    ∧ Lockin.inv_gains.map List.length = some 10 := by
  decide

/-- Witness for C2 at the `"10 dB"` entry: code 1 maps back to 10. -/
theorem C2_gain_inverse_mapping_witness :
    ("10 dB", "AUTOMATIC 0; ACGAIN 1") ∈ Lockin.gains
    ∧ Lockin.inv_gains.bind (fun d => lookupA d 1) = some 10 :=
  ⟨by decide,
   (C2_gain_inverse_mapping.1 ("10 dB", "AUTOMATIC 0; ACGAIN 1")
     (by decide) (by decide)).2.2⟩

/-- C5: the multimeter channel-range expansion maps `"101:105"` to the
five consecutive channels and `"101;103;107:109"` to the mixed list;
`","` and `";"` separate groups interchangeably; an `"a:b"` group
expands to `range(a, b + 1)` rendered as strings, which contains every
integer from `a` to `b` inclusive in strictly ascending order; a group
without `":"` is kept as a single element. -/
theorem C5_channel_range_expansion :
    Keithley.channelListOf "101:105" = some ["101", "102", "103", "104", "105"]
    ∧ Keithley.channelListOf "101;103;107:109"
        = some ["101", "103", "107", "108", "109"]
    ∧ Keithley.channelListOf "101,103,107:109"
        = Keithley.channelListOf "101;103;107:109"
    ∧ (∀ x gf gl a b, pySplit x ":" = [gf, gl] →
        pyContains x ":" = true →
        pyInt? gf = some a → pyInt? gl = some b →
        Keithley.expandGroup x = some ((pyRange a (b + 1)).map intToString))
    ∧ (∀ x, pyContains x ":" = false → Keithley.expandGroup x = some [x])
    ∧ (∀ a b i : Int, i ∈ pyRange a (b + 1) ↔ a ≤ i ∧ i ≤ b)
    ∧ (∀ a b : Int, (pyRange a b).Pairwise (· < ·)) := by
  refine ⟨by decide, by decide, by decide, ?_, ?_, ?_, ?_⟩
  · intro x gf gl a b hsplit hcont ha hb
    simp [Keithley.expandGroup, hcont, hsplit, ha, hb]
  · intro x h
    simp [Keithley.expandGroup, h]
  · intro a b i
    by_cases h : a < b + 1
    · simp only [pyRange, h, if_true, List.mem_map, List.mem_range]
      constructor
      · rintro ⟨k, hk, rfl⟩
        omega
      · rintro ⟨h1, h2⟩
        exact ⟨(i - a).toNat, by omega, by omega⟩
    · simp only [pyRange, h, if_false, List.not_mem_nil, false_iff]
      omega
  · intro a b
    by_cases h : a < b
    · simp only [pyRange, h, if_true]
      exact List.Pairwise.map _ (fun x y hxy => by omega) (List.pairwise_lt_range _)
    · simp [pyRange, h]

/-- Witness for C5's group rule at `"7:9"`. -/
theorem C5_channel_range_expansion_witness :
    Keithley.expandGroup "7:9" = some ["7", "8", "9"]
    ∧ Keithley.expandGroup "abc" = some ["abc"] :=
  ⟨C5_channel_range_expansion.2.2.2.1 "7:9" "7" "9" 7 9
     (by decide) (by decide) (by decide) (by decide),
   C5_channel_range_expansion.2.2.2.2.1 "abc" (by decide)⟩

/-- C6 (amended): the oscilloscope decoder maps the sentinel
`"9.91E+37"` to NaN; every other response accepted by `float`
conversion yields that conversion's value (for instance `"1.234E-03"`
yields 0.001234, and a NaN literal yields NaN); a response rejected by
`float` raises instead of returning a value. -/
theorem C6_sentinel_amended :
    Rtx.read_result_and_handle_error "9.91E+37" = some .nan
    ∧ (∀ s v, s ≠ "9.91E+37" → pyFloat? s = some v →
        Rtx.read_result_and_handle_error s = some v)
    ∧ (∀ s, s ≠ "9.91E+37" → pyFloat? s = none →
        Rtx.read_result_and_handle_error s = none)
    ∧ Rtx.read_result_and_handle_error "1.234E-03" = some (.num (Rat.divInt 617 500000))
    ∧ Rat.divInt 617 500000 = (1234 : ℚ) / 1000000 := by
  refine ⟨by decide, ?_, ?_, by decide, by rw [Rat.divInt_eq_div]; norm_num⟩
  · intro s v hs hv
    simp [Rtx.read_result_and_handle_error, hs, hv]
  · intro s hs hv
    simp [Rtx.read_result_and_handle_error, hs, hv]

/-- Counterexample to C6 as stated: the claim promises a float value
without raising for every non-sentinel input, but `"abc"` is not the
sentinel and the decoder raises (`float("abc")` fails). -/
theorem C6_sentinel_counterexample :
    "abc" ≠ "9.91E+37" ∧ Rtx.read_result_and_handle_error "abc" = none := by
  decide

/-- Witness for C6 (amended) at a NaN literal and a plain number. -/
theorem C6_sentinel_witness :
    Rtx.read_result_and_handle_error "nan" = some .nan
    ∧ Rtx.read_result_and_handle_error "2.5" = some (.num (Rat.divInt 5 2)) :=
  ⟨C6_sentinel_amended.2.1 "nan" .nan (by decide) (by decide),
   C6_sentinel_amended.2.1 "2.5" (.num (Rat.divInt 5 2)) (by decide) (by decide)⟩

/-- C10: `unit_to_float` rewrites only the characters `V`, `s`, space,
`n`, `µ`, `m`; every time-constant label offered by the driver's own
table that ends in the kilo suffix `"k"` makes the final `float`
conversion raise, and the seven labels `"1k"` … `"100k"` are offered;
consequently `trigger_ready` raises whenever such a label is the
selected time constant. -/
theorem C10_kilo_timeconstants_fail :
    Lockin.unitChars.map Prod.fst = ["V", "s", " ", "n", "µ", "m"]
    ∧ (∀ p ∈ Lockin.timeconstants, pyEndsWith p.1 "k" = true →
        Lockin.unit_to_float p.1 = none)
    ∧ ((["1k", "2k", "5k", "10k", "20k", "50k", "100k"].all
          fun lbl => Lockin.timeconstants.any fun p => p.1 = lbl) = true)
    ∧ (∀ w e lbl, Lockin.unit_to_float lbl = none →
        Lockin.trigger_ready w lbl e = none) := by
  refine ⟨by decide, by decide, by decide, ?_⟩
  intro w e lbl h
  simp [Lockin.trigger_ready, h]

/-- Witness for C10 at the `"1k"` label. -/
theorem C10_kilo_timeconstants_fail_witness :
    ("1k", "TC 23") ∈ Lockin.timeconstants
    ∧ Lockin.unit_to_float "1k" = none
    ∧ Lockin.trigger_ready (.num 4) "1k" (.num 0) = none :=
  ⟨by decide,
   C10_kilo_timeconstants_fail.2.1 ("1k", "TC 23") (by decide) (by decide),
   C10_kilo_timeconstants_fail.2.2.2 (.num 4) (.num 0) "1k"
     (C10_kilo_timeconstants_fail.2.1 ("1k", "TC 23") (by decide) (by decide))⟩

/-- C3 (amended): the multimeter buffer-fill poll checks the host's
stop signal at the top of every tick, before any sleep, so a raised
stop flag ends the wait immediately with no further sleep; the
oscilloscope waveform-count poll, by contrast, never consults the stop
signal -- its behaviour is identical for every stop flag. -/
theorem C3_stop_check_amended :
    (∀ stop resp n fuel t, stop t = true →
      Keithley.read_result stop resp n (fuel + 1) t = some (.exited 0))
    ∧ (∀ stop stop' resp w fuel t,
        Rtx.waitForWaveforms stop resp w fuel t
          = Rtx.waitForWaveforms stop' resp w fuel t) := by
  constructor
  · intro stop resp n fuel t h
    simp [Keithley.read_result, h]
  · intro stop stop' resp w fuel
    induction fuel with
    | zero => intro t; rfl
    | succ f ih =>
      intro t
      simp only [Rtx.waitForWaveforms]
      rw [ih (t + 1)]

/-- Counterexample to C3 as stated: with the stop flag raised from tick
0 and an instrument whose waveform count never reaches the target of 2,
the oscilloscope `request_result` loop is still polling after five
ticks -- the raised stop signal does not terminate the wait. -/
theorem C3_stop_check_counterexample :
    Rtx.waitForWaveforms (fun _ => true) (fun _ => "0") 2 5 0 = none := by
  decide

/-- Witness for C3 (amended): a raised stop flag makes the multimeter
poll exit with zero sleeps. -/
theorem C3_stop_check_amended_witness :
    Keithley.read_result (fun _ => true) (fun _ => "0,0") 1 4 0
      = some (.exited 0) :=
  C3_stop_check_amended.1 (fun _ => true) (fun _ => "0,0") 1 3 0 rfl

/-- C4: for a time-constant label whose converted value is `t`, the
settle-time poller sleeps exactly `max 0 (waitTimeConstants × t -
elapsed)`; in particular `"100m"` converts to 0.1 s, and with
multiplier 4.0 and 0.3 s elapsed the poller sleeps a further 0.1 s. -/
theorem C4_trigger_ready_sleep :
    (∀ (w e t : ℚ) (lbl : String), Lockin.unit_to_float lbl = some (.num t) →
      Lockin.trigger_ready (.num w) lbl (.num e) = some (.num (max 0 (w * t - e))))
    ∧ Lockin.unit_to_float "100m" = some (.num (Rat.divInt 1 10))
    ∧ Lockin.trigger_ready (.num 4) "100m" (.num (3 / 10))
        = some (.num (1 / 10)) := by
  have main : ∀ (w e t : ℚ) (lbl : String),
      Lockin.unit_to_float lbl = some (.num t) →
      Lockin.trigger_ready (.num w) lbl (.num e) = some (.num (max 0 (w * t - e))) := by
    intro w e t lbl h
    unfold Lockin.trigger_ready
    rw [h]
    simp only [Option.map_some']
    have hsub : pySub (pyMul (.num w) (.num t)) (.num e) = .num (w * t - e) := by
      simp [pySub, pyMul, pyNeg, pyAdd, sub_eq_add_neg]
    rw [hsub]
    by_cases hd : 0 < w * t - e
    · simp [pyGtZero, hd, max_eq_right hd.le]
    · push_neg at hd
      simp [pyGtZero, not_lt.mpr hd, max_eq_left hd]
  have h100m : Lockin.unit_to_float "100m" = some (.num (Rat.divInt 1 10)) := by
    decide
  refine ⟨main, h100m, ?_⟩
  rw [main 4 (3 / 10) (Rat.divInt 1 10) "100m" h100m]
  have hval : max (0 : ℚ) (4 * Rat.divInt 1 10 - 3 / 10) = 1 / 10 := by
    rw [Rat.divInt_eq_div]
    norm_num
  rw [hval]

/-- Witness for C4 at the concrete spec scenario. -/
theorem C4_trigger_ready_sleep_witness :
    Lockin.trigger_ready (.num 4) "100m" (.num (3 / 10))
      = some (.num (max 0 (4 * Rat.divInt 1 10 - 3 / 10))) :=
  C4_trigger_ready_sleep.1 4 (3 / 10) (Rat.divInt 1 10) "100m" (by decide)

theorem pySum_map_num : ∀ (qs : List ℚ) (a : ℚ),
    List.foldl pyAdd (.num a) (qs.map PyFloat.num) = .num (a + qs.sum) := by
  intro qs
  induction qs with
  | nil => intro a; simp [List.foldl]
  | cons q t ih =>
    intro a
    simp only [List.map_cons, List.foldl_cons, pyAdd, List.sum_cons]
    rw [ih (a + q)]
    congr 1
    ring

theorem pyDivNat_num (a : ℚ) (n : Nat) : pyDivNat (.num a) n = .num (a / n) := by
  simp only [pyDivNat, Rat.mkRat_eq_div]
  rw [Nat.cast_mul, ← div_div, Rat.num_div_den]

/-- C7: in non-scanning mode the multimeter `call` reduces every
response whose comma-separated tokens all parse to the single-element
list holding their `numpy.mean`, which on numeric values is the
arithmetic mean (sum over count); `"1.0,2.0,3.0"` gives `[2.0]`.  In
scanning mode it returns exactly the per-token parsed values, one per
comma-separated token, with no averaging. -/
theorem C7_averaging_reduction :
    (∀ ans readings,
        optMapM pyFloat? (pySplit (String.mk (stripChar '\n' ans.data)) ",")
          = some readings →
        Keithley.call false ans = some [pyMean readings])
    ∧ (∀ qs : List ℚ, qs ≠ [] →
        pyMean (qs.map PyFloat.num) = .num (qs.sum / qs.length))
    ∧ Keithley.call false "1.0,2.0,3.0" = some [.num 2]
    ∧ (∀ ans vals, Keithley.call true ans = some vals →
        optMapM pyFloat? (pySplit (String.mk (stripChar '\n' ans.data)) ",") = some vals
        ∧ vals.length = (pySplit (String.mk (stripChar '\n' ans.data)) ",").length) := by
  have hgen : ∀ ans readings,
      optMapM pyFloat? (pySplit (String.mk (stripChar '\n' ans.data)) ",")
        = some readings →
      Keithley.call false ans = some [pyMean readings] := by
    intro ans readings hm
    unfold Keithley.call
    simp [hm]
  have hmean : ∀ qs : List ℚ, qs ≠ [] →
      pyMean (qs.map PyFloat.num) = .num (qs.sum / qs.length) := by
    intro qs hne
    obtain ⟨q0, t, rfl⟩ : ∃ q0 t, qs = q0 :: t := by
      cases qs with
      | nil => exact absurd rfl hne
      | cons q0 t => exact ⟨q0, t, rfl⟩
    simp only [List.map_cons, pyMean, pySum, List.foldl_cons, pyAdd]
    rw [pySum_map_num t (0 + q0), pyDivNat_num]
    simp only [List.length_cons, List.length_map, List.sum_cons]
    congr 2
    ring
  refine ⟨hgen, hmean, ?_, ?_⟩
  · have hmap : optMapM pyFloat?
        (pySplit (String.mk (stripChar '\n' "1.0,2.0,3.0".data)) ",")
        = some [PyFloat.num 1, .num 2, .num 3] := by decide
    rw [hgen _ _ hmap]
    have h3 := hmean [1, 2, 3] (by simp)
    simp only [List.map_cons, List.map_nil] at h3
    rw [h3]
    norm_num
  · intro ans vals h
    unfold Keithley.call at h
    cases hm : optMapM pyFloat? (pySplit (String.mk (stripChar '\n' ans.data)) ",") with
    | none => simp [hm] at h
    | some rs =>
      simp only [hm, if_true, Option.some.injEq] at h
      obtain rfl := h
      exact ⟨rfl, optMapM_length _ _ _ hm⟩

/-- Witness for C7: the general non-scanning reduction applied at
`"2.0,4.0"`, the mean formula at `[2, 4]`, and the scanning conjunct at
`"1.0,2.0"`. -/
theorem C7_averaging_reduction_witness :
    Keithley.call false "2.0,4.0" = some [pyMean [PyFloat.num 2, .num 4]]
    ∧ pyMean ([(2 : ℚ), 4].map PyFloat.num)
        = .num (([(2 : ℚ), 4]).sum / ([(2 : ℚ), 4]).length)
    ∧ optMapM pyFloat? (pySplit (String.mk (stripChar '\n' "1.0,2.0".data)) ",")
      = some [PyFloat.num 1, .num 2] :=
  ⟨C7_averaging_reduction.1 "2.0,4.0" [PyFloat.num 2, .num 4] (by decide),
   C7_averaging_reduction.2.1 [2, 4] (List.cons_ne_nil _ _),
   (C7_averaging_reduction.2.2.2 "1.0,2.0" [PyFloat.num 1, .num 2] (by decide)).1⟩

/-- Whether a measurement place is configured with both an assigned
channel and an assigned mode (the guard of the place loop). -/
def placeActive (params : String → Option String) (p : Int) : Bool :=
  Rtx.placeChannel params p != "None" && Rtx.placeMode params p != "None"

theorem optMapM_mem (f : α → Option β) :
    ∀ (l : List α) (r : List β), optMapM f l = some r →
      ∀ b ∈ r, ∃ a ∈ l, f a = some b := by
  intro l
  induction l with
  | nil =>
    intro r h b hb
    simp only [optMapM, Option.some.injEq] at h
    subst h
    simp at hb
  | cons a t ih =>
    intro r h b hb
    simp only [optMapM] at h
    cases hf : f a with
    | none => rw [hf] at h; exact absurd h (by simp)
    | some c =>
      rw [hf] at h
      cases hm : optMapM f t with
      | none => rw [hm] at h; exact absurd h (by simp)
      | some r' =>
        rw [hm] at h
        simp only [Option.some.injEq] at h
        subst h
        rcases List.mem_cons.mp hb with rfl | hb'
        · exact ⟨a, List.mem_cons_self a t, hf⟩
        · obtain ⟨a', ha', hfa'⟩ := ih r' hm b hb'
          exact ⟨a', List.mem_cons_of_mem a ha', hfa'⟩

theorem processPlace_cases (params : String → Option String) (st st' : Rtx.State)
    (p : Int) (h : Rtx.processPlace params st p = some st') :
    (¬(Rtx.placeChannel params p ≠ "None" ∧ Rtx.placeMode params p ≠ "None") ∧ st' = st)
    ∨ ((Rtx.placeChannel params p ≠ "None" ∧ Rtx.placeMode params p ≠ "None")
       ∧ ∃ e v u, e.1 = p
         ∧ st'.measurement_places = st.measurement_places ++ [e]
         ∧ st'.«variables» = st.«variables» ++ [v]
         ∧ st'.units = st.units ++ [u]
         ∧ st'.plottype = st.plottype ++ [true]
         ∧ st'.savetype = st.savetype ++ [true]) := by
  simp only [Rtx.processPlace] at h
  by_cases hc : Rtx.placeChannel params p ≠ "None" ∧ Rtx.placeMode params p ≠ "None"
  · rw [if_pos hc] at h
    right
    refine ⟨hc, ?_⟩
    split at h
    · exact absurd h (by simp)
    · split at h
      · simp only [Option.some.injEq] at h
        subst h
        exact ⟨_, _, _, rfl, rfl, rfl, rfl, rfl, rfl⟩
      · exact absurd h (by simp)
  · rw [if_neg hc] at h
    simp only [Option.some.injEq] at h
    subst h
    exact Or.inl ⟨hc, rfl⟩

theorem placeActive_iff (params : String → Option String) (p : Int) :
    placeActive params p = true
      ↔ (Rtx.placeChannel params p ≠ "None" ∧ Rtx.placeMode params p ≠ "None") := by
  simp [placeActive]

theorem applyPlaces_keys (params : String → Option String) :
    ∀ (ps : List Int) (st st' : Rtx.State),
      Rtx.applyPlaces params ps st = some st' →
      st'.measurement_places.map Prod.fst
        = st.measurement_places.map Prod.fst ++ ps.filter (placeActive params) := by
  intro ps
  induction ps with
  | nil =>
    intro st st' h
    simp only [Rtx.applyPlaces, Option.some.injEq] at h
    subst h
    simp
  | cons p t ih =>
    intro st st' h
    simp only [Rtx.applyPlaces] at h
    cases hp : Rtx.processPlace params st p with
    | none => rw [hp] at h; exact absurd h (by simp)
    | some st2 =>
      rw [hp] at h
      rcases processPlace_cases params st st2 p hp with
        ⟨hna, rfl⟩ | ⟨ha, e, v, u, he1, he2, _, _, _, _⟩
      · have hfalse : placeActive params p = false := by
          rw [← Bool.not_eq_true]
          intro hab
          exact hna ((placeActive_iff params p).mp hab)
        rw [ih _ _ h]
        simp [List.filter_cons, hfalse]
      · have htrue : placeActive params p = true := (placeActive_iff params p).mpr ha
        rw [ih _ _ h, he2]
        simp [List.filter_cons, htrue, he1]

theorem applyPlaces_lengths (params : String → Option String) :
    ∀ (ps : List Int) (st st' : Rtx.State),
      Rtx.applyPlaces params ps st = some st' →
      st.«variables».length = st.measurement_places.length →
      st.units.length = st.measurement_places.length →
      st.plottype.length = st.measurement_places.length →
      st.savetype.length = st.measurement_places.length →
      st'.«variables».length = st'.measurement_places.length
      ∧ st'.units.length = st'.measurement_places.length
      ∧ st'.plottype.length = st'.measurement_places.length
      ∧ st'.savetype.length = st'.measurement_places.length := by
  intro ps
  induction ps with
  | nil =>
    intro st st' h h1 h2 h3 h4
    simp only [Rtx.applyPlaces, Option.some.injEq] at h
    subst h
    exact ⟨h1, h2, h3, h4⟩
  | cons p t ih =>
    intro st st' h h1 h2 h3 h4
    simp only [Rtx.applyPlaces] at h
    cases hp : Rtx.processPlace params st p with
    | none => rw [hp] at h; exact absurd h (by simp)
    | some st2 =>
      rw [hp] at h
      rcases processPlace_cases params st st2 p hp with
        ⟨hna, rfl⟩ | ⟨ha, e, v, u, he1, he2, hv, hu, hpl, hs⟩
      · exact ih _ _ h h1 h2 h3 h4
      · exact ih _ _ h (by simp [hv, he2, h1]) (by simp [hu, he2, h2])
          (by simp [hpl, he2, h3]) (by simp [hs, he2, h4])

/-- The number-of-places value read by the place loop. -/
def rtxNumberOfPlaces (params : String → Option String) : Int :=
  Rtx.parse_parameter_int params "Number of places" Rtx.maximum_measurement_places

/-- C8 (amended): in the oscilloscope place loop a measurement slot
contributes an entry to `measurement_places` -- and exactly one
variable, unit, plottype and savetype entry -- if and only if both its
channel selection and its mode selection differ from `"None"`; a slot
whose channel is assigned but whose mode is `"None"` contributes
nothing. -/
theorem C8_place_contribution_amended :
    ∀ params wc st, Rtx.apply_gui_parameters false params = some (wc, st) →
      st.measurement_places.map Prod.fst
        = (pyRange 1 (rtxNumberOfPlaces params + 1)).filter (placeActive params)
      ∧ (∀ p : Int, p ∈ st.measurement_places.map Prod.fst
          ↔ p ∈ pyRange 1 (rtxNumberOfPlaces params + 1) ∧ placeActive params p = true)
      ∧ st.«variables».length = st.measurement_places.length
      ∧ st.units.length = st.measurement_places.length
      ∧ st.plottype.length = st.measurement_places.length
      ∧ st.savetype.length = st.measurement_places.length := by
  intro params wc st h
  have h' : (Rtx.applyPlaces params (pyRange 1 (rtxNumberOfPlaces params + 1))
      Rtx.emptyState).map
        (fun s => (Rtx.parse_parameter_int params "Waveform count" 1, s))
      = some (wc, st) := h
  cases ha : Rtx.applyPlaces params (pyRange 1 (rtxNumberOfPlaces params + 1))
      Rtx.emptyState with
  | none => rw [ha] at h'; exact absurd h' (by simp)
  | some st0 =>
    rw [ha] at h'
    simp only [Option.map_some', Option.some.injEq, Prod.mk.injEq] at h'
    obtain ⟨-, rfl⟩ := h'
    have hkeys := applyPlaces_keys params _ _ _ ha
    have hlen := applyPlaces_lengths params _ _ _ ha rfl rfl rfl rfl
    simp only [Rtx.emptyState, List.map_nil, List.nil_append] at hkeys
    refine ⟨hkeys, ?_, hlen.1, hlen.2.1, hlen.2.2.1, hlen.2.2.2⟩
    intro p
    rw [hkeys]
    simp [List.mem_filter]

/-- The GUI parameters of the C8 witness: three places, place 1 fully
assigned, place 2 without channel, place 3 with channel but mode
`"None"`. -/
def rtxP8 : String → Option String := fun key =>
  if key = "Number of places" then some "3"
  else if key = "Place 1 channel" then some "CH1"
  else if key = "Place 1 mode" then some "Frequency in Hz"
  else if key = "Place 1 statistics" then some "Average"
  else if key = "Place 3 channel" then some "CH2"
  else if key = "Place 3 mode" then some "None"
  else none

/-- Witness for C8 (amended) on `rtxP8`: only place 1 contributes. -/
theorem C8_place_contribution_amended_witness :
    Rtx.apply_gui_parameters false rtxP8
      = some (1, ⟨[(1, 1, "FREQ", "Average")], ["CH1 Frequency"], ["Hz"], [true], [true]⟩)
    ∧ [((1 : Int), (1 : Int), "FREQ", "Average")].map Prod.fst = [(1 : Int)]
    ∧ (pyRange 1 (rtxNumberOfPlaces rtxP8 + 1)).filter (placeActive rtxP8) = [1] := by
  refine ⟨by decide, ?_, by decide⟩
  have h := C8_place_contribution_amended rtxP8 1
    ⟨[(1, 1, "FREQ", "Average")], ["CH1 Frequency"], ["Hz"], [true], [true]⟩ (by decide)
  exact h.1.trans (by decide)

/-- Counterexample to C8 as stated: in `rtxP8` place 3 has an assigned
channel (`"CH2"`) yet contributes no entry and no variable, because its
mode is `"None"`. -/
theorem C8_place_contribution_counterexample :
    Rtx.placeChannel rtxP8 3 = "CH2"
    ∧ (Rtx.apply_gui_parameters false rtxP8).map
        (fun x => (x.2.measurement_places.map Prod.fst, x.2.«variables».length))
      = some ([1], 1) := by
  decide

theorem expandGroup_elem (g : String) (gl : List String)
    (h : Keithley.expandGroup g = some gl) :
    ∀ e ∈ gl, isDecimalIntString e = true ∨ (pyContains g ":" = false ∧ e = g) := by
  unfold Keithley.expandGroup at h
  by_cases hc : pyContains g ":" = true
  · rw [if_pos hc] at h
    split at h
    · split at h
      · simp only [Option.some.injEq] at h
        subst h
        intro e he
        obtain ⟨i, hi, rfl⟩ := List.mem_map.mp he
        exact Or.inl (intToString_isDecimal i)
      · exact absurd h (by simp)
    · exact absurd h (by simp)
  · rw [if_neg hc] at h
    simp only [Option.some.injEq] at h
    subst h
    intro e he
    simp only [List.mem_singleton] at he
    subst he
    simp only [Bool.not_eq_true] at hc
    exact Or.inr ⟨hc, rfl⟩

/-- C9 (amended): every channel-list element that arises from expanding
an `"a:b"` range group is a string-formatted integer; an element from a
group without `":"` is the group text kept verbatim (and so is a
string-formatted integer only if the input group already was one).
The list is recomputed by each `get_GUIparameter` call, once per
configuration cycle. -/
theorem C9_channel_elements_amended :
    ∀ s lst, Keithley.channelListOf s = some lst →
      ∀ e ∈ lst, isDecimalIntString e = true
        ∨ (pyContains e ":" = false ∧ e ∈ pySplit (pyReplace s "," ";") ";") := by
  intro s lst h e he
  unfold Keithley.channelListOf at h
  cases hm : optMapM Keithley.expandGroup (pySplit (pyReplace s "," ";") ";") with
  | none => rw [hm] at h; exact absurd h (by simp)
  | some gls =>
    rw [hm] at h
    simp only [Option.map_some', Option.some.injEq] at h
    subst h
    obtain ⟨gl, hgl, hegl⟩ := List.mem_flatten.mp he
    obtain ⟨g, hg, hfg⟩ := optMapM_mem _ _ _ hm gl hgl
    rcases expandGroup_elem g gl hfg e hegl with hd | ⟨hnc, rfl⟩
    · exact Or.inl hd
    · exact Or.inr ⟨hnc, hg⟩

/-- Counterexample to C9 as stated: the binder accepts the channel
string `"101;abc"` without error, yet the derived element `"abc"` is
not a string-formatted integer (colon-free groups are kept verbatim,
unvalidated). -/
theorem C9_channel_elements_counterexample :
    (Keithley.get_GUIparameter ⟨"Voltage DC", "5", "101;abc", "Immediate", false,
        "Auto", "Medium", "K", "COM1"⟩).map (fun st => st.channel_list)
      = some ["101", "abc"]
    ∧ isDecimalIntString "abc" = false := by
  decide

/-- Witness for C9 (amended) at `"101;103:104"`, element `"103"`. -/
theorem C9_channel_elements_amended_witness :
    isDecimalIntString "103" = true
    ∨ (pyContains "103" ":" = false
       ∧ "103" ∈ pySplit (pyReplace "101;103:104" "," ";") ";") :=
  C9_channel_elements_amended "101;103:104" ["101", "103", "104"] (by decide)
    "103" (by decide)

/-- C1: for each driver, `call` returns exactly as many values as the
most recent parameter binding declared variables: the lock-in always
returns six values for its six variables; the multimeter returns one
value when not scanning and, when scanning, one per response token --
equal to the declared count whenever the response carries one token per
channel; the oscilloscope returns one value per `measurement_places`
entry, which is one per declared variable. -/
theorem C1_output_length_invariant :
    (∀ p prev st, Lockin.get_GUIparameter p prev = some st →
      ∀ res : Lockin.Results, (Lockin.call res).length = st.«variables».length)
    ∧ (∀ p st, Keithley.get_GUIparameter p = some st →
        (st.scanning = false →
          ∀ ans vals, Keithley.call st.scanning ans = some vals →
            vals.length = st.«variables».length)
        ∧ (st.scanning = true →
          ∀ ans vals, Keithley.call st.scanning ans = some vals →
            (pySplit (String.mk (stripChar '\n' ans.data)) ",").length
              = st.channel_list.length →
            vals.length = st.«variables».length))
    ∧ (∀ params wc st env vals,
        Rtx.apply_gui_parameters Rtx.use_preset params = some (wc, st) →
        Rtx.call Rtx.use_preset st.measurement_places env = some vals →
        vals.length = st.«variables».length) := by
  refine ⟨?_, ?_, ?_⟩
  · intro p prev st h res
    unfold Lockin.get_GUIparameter at h
    cases hw : pyFloat? p.waittimeconstants with
    | none => rw [hw] at h; exact absurd h (by simp)
    | some w =>
      rw [hw] at h
      simp only [Option.some.injEq] at h
      subst h
      simp [Lockin.call]
  · intro p st h
    unfold Keithley.get_GUIparameter at h
    cases hcl : Keithley.channelListOf p.channelList with
    | none => rw [hcl] at h; exact absurd h (by simp)
    | some clist =>
      rw [hcl] at h
      by_cases hs : p.scanning = true
      · simp only [hs, if_true] at h
        split at h
        · exact absurd h (by simp)
        · simp only [Option.some.injEq] at h
          subst h
          constructor
          · intro hsf
            exact absurd hsf (by simp [hs])
          · intro _ ans vals hcall htok
            unfold Keithley.call at hcall
            cases hm : optMapM pyFloat?
                (pySplit (String.mk (stripChar '\n' ans.data)) ",") with
            | none => simp [hm] at hcall
            | some rs =>
              simp only [hm, hs, if_true, Option.some.injEq] at hcall
              subst hcall
              rw [optMapM_length _ _ _ hm, htok]
              simp
      · simp only [Bool.not_eq_true] at hs
        simp only [hs, Bool.false_eq_true, if_false] at h
        split at h
        · simp only [Option.some.injEq] at h
          subst h
          constructor
          · intro _ ans vals hcall
            unfold Keithley.call at hcall
            cases hm : optMapM pyFloat?
                (pySplit (String.mk (stripChar '\n' ans.data)) ",") with
            | none => simp [hm] at hcall
            | some rs =>
              simp only [hm, hs, Bool.false_eq_true, if_false,
                Option.some.injEq] at hcall
              subst hcall
              simp
          · intro hst
            exact absurd hst (by simp [hs])
        · exact absurd h (by simp)
  · intro params wc st env vals h hcall
    have h' : (Rtx.applyPlaces params
        (pyRange 1 (rtxNumberOfPlaces params + 1)) Rtx.emptyState).map
          (fun s => (Rtx.parse_parameter_int params "Waveform count" 1, s))
        = some (wc, st) := h
    cases ha : Rtx.applyPlaces params (pyRange 1 (rtxNumberOfPlaces params + 1))
        Rtx.emptyState with
    | none => rw [ha] at h'; exact absurd h' (by simp)
    | some st0 =>
      rw [ha] at h'
      simp only [Option.map_some', Option.some.injEq, Prod.mk.injEq] at h'
      obtain ⟨-, rfl⟩ := h'
      have hlen := (applyPlaces_lengths params _ _ _ ha rfl rfl rfl rfl).1
      unfold Rtx.call at hcall
      cases hm : optMapM (Rtx.resultForPlace env) st0.measurement_places with
      | none => simp [hm] at hcall
      | some results =>
        simp only [hm, Rtx.use_preset, Bool.false_eq_true, false_and, if_false,
          Option.some.injEq] at hcall
        subst hcall
        rw [optMapM_length _ _ _ hm, hlen]

/-- Lock-in GUI parameters for the C1 witness. -/
def lockinPW : Lockin.GuiParams :=
  ⟨"None", "Internal", "Voltage A, Front", "Fast", "12 dB/octave", "Ground",
   "Auto sensitivity", "Off", "Sync filter off", "Auto gain", "100m", "4.0"⟩

/-- The state the lock-in binder produces on `lockinPW`. -/
def lockinStW : Lockin.GuiState :=
  ⟨"None", "Internal", "Voltage A, Front", "Fast", "12 dB/octave", "Ground",
   "Auto sensitivity", "Off", "Sync filter off", "Auto gain", "100m", .num 4,
   ["Magnitude", "Phase", "Frequency", "Sensitivity", "AC Gain", "Noise density"],
   ["V", "deg", "Hz", "V", "dB", "V/sqrt(Hz)"],
   [true, true, true, true, true, true],
   [true, true, true, true, true, true]⟩

/-- Multimeter GUI parameters for the C1 witness (scanning, 3 channels). -/
def kPW : Keithley.Params :=
  ⟨"Voltage DC", "5", "101:103", "Immediate", true, "Auto", "Medium", "K", "COM1"⟩

/-- The state the multimeter binder produces on `kPW`. -/
def kStW : Keithley.GuiState :=
  ⟨"Voltage DC", "5", "101:103", ["101", "102", "103"], ["Dev01", "Dev02", "Dev03"],
   "Immediate", true, "Auto", "Medium", "K", "COM1",
   ["Voltage DC Dev01", "Voltage DC Dev02", "Voltage DC Dev03"],
   ["V", "V", "V"], [true, true, true], [true, true, true]⟩

/-- The state the oscilloscope binder produces on `rtxP8`. -/
def rtxStW : Rtx.State :=
  ⟨[(1, 1, "FREQ", "Average")], ["CH1 Frequency"], ["Hz"], [true], [true]⟩

/-- Instrument environment for the C1 witness: every oscilloscope read
answers `"5.0"`. -/
def rtxEnvW : Int → String → String := fun _ _ => "5.0"

/-- Witness for C1: concrete bindings and responses for each driver. -/
theorem C1_output_length_invariant_witness :
    (Lockin.call ⟨.num 1, .num 2, .num 3, .num 4, .num 5, 30⟩).length
        = lockinStW.«variables».length
    ∧ [PyFloat.num 1, .num 2, .num 3].length = kStW.«variables».length
    ∧ [PyFloat.num 5].length = rtxStW.«variables».length :=
  ⟨C1_output_length_invariant.1 lockinPW [] lockinStW (by decide) _,
   (C1_output_length_invariant.2.1 kPW kStW (by decide)).2 (by decide)
     "1.0,2.0,3.0" [PyFloat.num 1, .num 2, .num 3] (by decide) (by decide),
   C1_output_length_invariant.2.2 rtxP8 1 rtxStW rtxEnvW [PyFloat.num 5]
     (by decide) (by decide)⟩
